import Mathlib

/-!
Verification of the retrieval-and-answer core of the `bithealth-crfc`
repository: a shallow embedding of `app/services/document_store.py`,
`app/services/embeddings.py` and `app/services/rag.py`.

Modelling conventions:
* Python strings are lists of characters (`Str`); `s.lower()` is a
  characterwise `Char.toLower`; the Python substring test `q in t` is
  `pyInStr`.
* Python floats appear only as opaque embedding values that the code under
  study never inspects numerically, so they are modelled as rationals.
* Methods that mutate `self` become explicit state-passing functions
  `State → args → result × State`; methods that do not mutate return the
  state unchanged (mirroring the absence of writes in the source).
* The Qdrant backend client is an explicit model (`QdrantClientModel`)
  whose hit lists are arbitrary parameters, since the network backend is
  outside the repository.
-/

namespace BithealthCrfc

/-- Python strings, modelled as lists of characters. -/
abbrev Str := List Char

/-- Characterwise model of Python `s.lower()`. -/
def pyLower (s : Str) : Str := s.map Char.toLower

/-- Predicate `pyStartsWith q t` holds when `t` begins with `q` (helper for the
Python substring test). -/
def pyStartsWith : Str → Str → Bool
  | [], _ => true
  | _ :: _, [] => false
  | q :: qs, t :: ts => (q = t) && pyStartsWith qs ts

/-- Model of the Python containment test `q in t` for strings: `q` occurs
as a contiguous substring of `t` (the empty string occurs in every
string). -/
def pyInStr (q : Str) : Str → Bool
  | [] => pyStartsWith q []
  | t :: ts => pyStartsWith q (t :: ts) || pyInStr q ts

/-- Data model of `Document` in `app/services/document_store.py`. -/
structure Document where
  id : ℕ
  text : Str
  embedding : List ℚ
  deriving Repr, DecidableEq

/-- State of `InMemoryDocumentStore`: the `_documents` list. -/
structure InMemoryDocumentStore where
  documents : List Document
  deriving Repr, DecidableEq

/-- A freshly constructed `InMemoryDocumentStore` (`__init__`). -/
def InMemoryDocumentStore.empty : InMemoryDocumentStore := ⟨[]⟩

/-- Model of `InMemoryDocumentStore.add_document`: the new id is the current length
of `_documents`, and the document is appended. -/
def InMemoryDocumentStore.add_document (s : InMemoryDocumentStore)
    (text : Str) (embedding : List ℚ) : ℕ × InMemoryDocumentStore :=
  let doc_id := s.documents.length
  (doc_id, ⟨s.documents ++ [⟨doc_id, text, embedding⟩]⟩)

/-- Model of `InMemoryDocumentStore.retrieve`: case-insensitive substring match of
`raw_query` against every stored text, collected in insertion order, with
a fallback to the first stored document when nothing matches; the
embedding and the limit are not used.  (`raw_query or ""` is the identity
in this model, where `None` is not representable.)  The unchanged store
state is returned alongside the results, mirroring that the method
performs no writes. -/
def InMemoryDocumentStore.retrieve (s : InMemoryDocumentStore)
    (query_embedding : List ℚ) (raw_query : Str) (limit : ℕ) :
    List Str × InMemoryDocumentStore :=
  let query_lower := pyLower raw_query
  let results :=
    (s.documents.filter fun doc => pyInStr query_lower (pyLower doc.text)).map
      Document.text
  let results :=
    if results.isEmpty then
      match s.documents with
      | [] => results
      | doc :: _ => [doc.text]
    else results
  (results, s)

/-- Model of `InMemoryDocumentStore.in_memory_count`. -/
def InMemoryDocumentStore.in_memory_count (s : InMemoryDocumentStore) : ℕ :=
  s.documents.length

/-- Model of a payload value attached to a Qdrant hit: either not a dict
(so the `isinstance(payload, dict)` test fails) or a dict given by its
entries. -/
inductive Payload where
  | nonDict
  | dict (entries : List (String × Str))
  deriving Repr, DecidableEq

/-- Dict membership plus lookup: Python `"text" in payload` followed by
`payload["text"]`. -/
def Payload.textEntry : Payload → Option Str
  | .nonDict => none
  | .dict entries => entries.lookup "text"

/-- Model of a hit returned by the Qdrant client; `payload` is `none` when
`getattr(hit, "payload", None)` yields `None` (attribute absent or null). -/
structure Hit where
  payload : Option Payload
  deriving Repr, DecidableEq

/-- Text extraction for one hit in `QdrantDocumentStore.retrieve`: the
payload must exist, be a dict, and contain a `"text"` entry. -/
def hitText (h : Hit) : Option Str :=
  match h.payload with
  | some p => p.textEntry
  | none => none

/-- Model of `PointStruct(id=..., vector=..., payload=...)`. -/
structure PointStruct where
  id : ℕ
  vector : List ℚ
  payload : Payload
  deriving Repr, DecidableEq

/-- Model of the Qdrant client as seen by `QdrantDocumentStore.retrieve`:
which of the two query capabilities `hasattr` finds, and the hit lists the
backend would return for a given query vector and limit.  The hit lists
are arbitrary: the network backend is outside the repository. -/
structure QdrantClientModel where
  has_query_points : Bool
  has_search : Bool
  query_points_hits : List ℚ → ℕ → List Hit
  search_hits : List ℚ → ℕ → List Hit

/-- Client-side state of `QdrantDocumentStore`: the `_next_id` counter and
the points currently in the collection. -/
structure QdrantDocumentStore where
  next_id : ℕ
  points : List PointStruct
  deriving Repr, DecidableEq

/-- State of a `QdrantDocumentStore` right after a successful
`__init__`: the counter starts at 0 and `_ensure_collection` has recreated
the collection, discarding any prior contents. -/
def QdrantDocumentStore.fresh : QdrantDocumentStore := ⟨0, []⟩

/-- Qdrant `upsert` of a single point: replace the point with the same id
if present, otherwise append. -/
def upsertPoint (points : List PointStruct) (p : PointStruct) :
    List PointStruct :=
  if points.any fun q => q.id = p.id then
    points.map fun q => if q.id = p.id then p else q
  else points ++ [p]

/-- Model of `QdrantDocumentStore.add_document`: take `_next_id` as the id,
increment the counter, and upsert a point whose payload is
`{"text": text}`. -/
def QdrantDocumentStore.add_document (s : QdrantDocumentStore)
    (text : Str) (embedding : List ℚ) : ℕ × QdrantDocumentStore :=
  let doc_id := s.next_id
  let point : PointStruct := ⟨doc_id, embedding, .dict [("text", text)]⟩
  (doc_id, ⟨s.next_id + 1, upsertPoint s.points point⟩)

/-- The `RuntimeError` message raised when the client has neither query
capability. -/
def qdrantCapabilityError : String :=
  "QdrantClient has neither query_points nor search. Please check the installed qdrant-client version."

/-- Model of `QdrantDocumentStore.retrieve`: choose `query_points` when available,
else `search`, else raise a `RuntimeError`; then keep the texts of the
hits whose payload is a dict containing `"text"`.  `raw_query` is accepted
but unused. -/
def QdrantDocumentStore.retrieve (client : QdrantClientModel)
    (query_embedding : List ℚ) (raw_query : Str) (limit : ℕ) :
    Except String (List Str) :=
  if client.has_query_points then
    .ok ((client.query_points_hits query_embedding limit).filterMap hitText)
  else if client.has_search then
    .ok ((client.search_hits query_embedding limit).filterMap hitText)
  else
    .error qdrantCapabilityError

/-- Outcome of the fallible part of `create_document_store`: constructing
`QdrantClient(qdrant_url)` and running `QdrantDocumentStore.__init__`
(network connection plus collection recreation).  An exception is
modelled by its message. -/
abbrev QdrantInitOutcome := Except String Unit

/-- The store chosen by `create_document_store`. -/
inductive StoreChoice where
  | qdrant (s : QdrantDocumentStore)
  | inMemory (s : InMemoryDocumentStore)
  deriving Repr, DecidableEq

/-- Model of `create_document_store`: one attempt at Qdrant-backed initialization;
on success the Qdrant store (counter at 0, collection recreated empty) is
returned, and on any exception the handler returns a fresh
`InMemoryDocumentStore` instead of propagating the error.  The result
type has no error case: the function always returns a store. -/
def create_document_store (init_outcome : QdrantInitOutcome) : StoreChoice :=
  match init_outcome with
  | .ok () => .qdrant QdrantDocumentStore.fresh
  | .error _ => .inMemory InMemoryDocumentStore.empty

/-- Model of `FakeEmbeddingService.embed`, parameterized by the opaque Python
`hash` function `h` and by the deterministic pseudo-random stream
`rng seed i` (the `i`-th draw of `random.Random(seed).random()`): the
seed is `abs(hash(text)) % 10000` and the result is `dim` successive
draws. -/
def FakeEmbeddingService.embed (h : Str → ℤ) (rng : ℕ → ℕ → ℚ)
    (dim : ℕ) (text : Str) : List ℚ :=
  let seed := (h text).natAbs % 10000
  (List.range dim).map (rng seed)

/-- Constant `EMBEDDING_DIM` from `app/config.py`. -/
def EMBEDDING_DIM : ℕ := 128

/-- Pipeline state threaded through the LangGraph nodes in
`app/services/rag.py`: the dict with keys `question`, `context`,
`answer`; `none` models an absent key. -/
structure PipelineState where
  question : Str
  context : Option (List Str)
  answer : Option Str
  deriving Repr, DecidableEq

/-- Model of `retrieve_node` (over the in-memory store): embed the question, call
`retrieve` with the embedding, the raw question and limit 2, and store the
result under `context`. -/
def retrieve_node (store : InMemoryDocumentStore) (embed : Str → List ℚ)
    (state : PipelineState) : PipelineState :=
  let question := state.question
  let query_embedding := embed question
  let context := (store.retrieve query_embedding question 2).1
  { state with context := some context }

/-- The fixed "no answer" string of `answer_node`. -/
def noAnswerString : Str := "Sorry, I don't know.".data

/-- The answer template of `answer_node`:
`f"I found this: '{ctx[0][:100]}...'"` applied to the first context
entry. -/
def answerTemplate (first : Str) : Str :=
  "I found this: '".data ++ first.take 100 ++ "...'".data

/-- Model of `answer_node`: read `state.get("context") or []`; if non-empty, the
answer is the template over the first entry, else the fixed "no answer"
string. -/
def answer_node (state : PipelineState) : PipelineState :=
  let ctx := state.context.getD []
  let answer :=
    match ctx with
    | [] => noAnswerString
    | first :: _ => answerTemplate first
  { state with answer := some answer }

/-- Result dict of `RagService.answer_question`. -/
structure AnswerResult where
  question : Str
  answer : Str
  context_used : List Str
  deriving Repr, DecidableEq

/-- Model of `RagService.answer_question` (with the in-memory store): run the
compiled two-node chain — `retrieve` then `answer` — on the fresh state
`{"question": question}` and project the result dict.  After the chain,
`answer` is always set; `getD` mirrors `result_state.get("context", [])`
and the (always successful) `result_state["answer"]` access. -/
def answer_question (store : InMemoryDocumentStore) (embed : Str → List ℚ)
    (question : Str) : AnswerResult :=
  let state : PipelineState := ⟨question, none, none⟩
  let result_state := answer_node (retrieve_node store embed state)
  { question := question
    answer := result_state.answer.getD []
    context_used := result_state.context.getD [] }

/-- Model of `RagService.add_document` (with the in-memory store): embed the text
and delegate to the store. -/
def RagService.add_document (store : InMemoryDocumentStore)
    (embed : Str → List ℚ) (text : Str) : ℕ × InMemoryDocumentStore :=
  store.add_document text (embed text)

/-! Drivers: a sequence of `add_document` calls, used to state claims that
quantify over call sequences. -/

/-- Run `add_document` once per `(text, embedding)` pair on the in-memory
store, collecting the returned ids in call order. -/
def InMemoryDocumentStore.addAll (s : InMemoryDocumentStore) :
    List (Str × List ℚ) → List ℕ × InMemoryDocumentStore
  | [] => ([], s)
  | (t, v) :: rest =>
    let step := s.add_document t v
    let more := step.2.addAll rest
    (step.1 :: more.1, more.2)

/-- Run `add_document` once per `(text, embedding)` pair on the
Qdrant-backed store, collecting the returned ids in call order. -/
def QdrantDocumentStore.addAll (s : QdrantDocumentStore) :
    List (Str × List ℚ) → List ℕ × QdrantDocumentStore
  | [] => ([], s)
  | (t, v) :: rest =>
    let step := s.add_document t v
    let more := step.2.addAll rest
    (step.1 :: more.1, more.2)

/-! Helper lemmas. -/

lemma inMemory_addAll_ids (items : List (Str × List ℚ)) :
    ∀ s : InMemoryDocumentStore,
      (s.addAll items).1 =
        (List.range items.length).map (· + s.documents.length) := by
  induction items with
  | nil => intro s; simp [InMemoryDocumentStore.addAll]
  | cons item rest ih =>
    intro s
    obtain ⟨t, v⟩ := item
    simp only [InMemoryDocumentStore.addAll, InMemoryDocumentStore.add_document]
    rw [ih, List.length_cons, List.range_succ_eq_map]
    simp only [List.map_cons, List.map_map, Function.comp_def, Nat.zero_add,
      List.length_append, List.length_cons, List.length_nil]
    refine congrArg _ (List.map_congr_left fun i _ => ?_)
    omega

lemma qdrant_addAll_ids (items : List (Str × List ℚ)) :
    ∀ s : QdrantDocumentStore,
      (s.addAll items).1 =
        (List.range items.length).map (· + s.next_id) := by
  induction items with
  | nil => intro s; simp [QdrantDocumentStore.addAll]
  | cons item rest ih =>
    intro s
    obtain ⟨t, v⟩ := item
    simp only [QdrantDocumentStore.addAll, QdrantDocumentStore.add_document]
    rw [ih, List.length_cons, List.range_succ_eq_map]
    simp only [List.map_cons, List.map_map, Function.comp_def, Nat.zero_add]
    refine congrArg _ (List.map_congr_left fun i _ => ?_)
    omega

/-! Claim theorems. -/

/-- Claim C1: every sequence of `N` `add_document` calls on a freshly
created store — either variant — returns exactly the identifiers
`0, 1, …, N-1` in call order, and in particular no identifier is issued
twice by the same store instance. -/
theorem c1_fresh_store_ids (items : List (Str × List ℚ)) :
    (InMemoryDocumentStore.empty.addAll items).1 = List.range items.length
    ∧ (QdrantDocumentStore.fresh.addAll items).1 = List.range items.length
    ∧ (InMemoryDocumentStore.empty.addAll items).1.Nodup
    ∧ (QdrantDocumentStore.fresh.addAll items).1.Nodup := by
  have h1 : (InMemoryDocumentStore.empty.addAll items).1
      = List.range items.length := by
    rw [inMemory_addAll_ids]
    simp [InMemoryDocumentStore.empty]
  have h2 : (QdrantDocumentStore.fresh.addAll items).1
      = List.range items.length := by
    rw [qdrant_addAll_ids]
    simp [QdrantDocumentStore.fresh]
  refine ⟨h1, h2, ?_, ?_⟩
  · rw [h1]; exact List.nodup_range _
  · rw [h2]; exact List.nodup_range _

/-- Claim C10: the in-memory store's `add_document` only appends — the
previously stored prefix is unchanged and the live count grows by exactly
one — and `retrieve` leaves the store state untouched. -/
theorem c10_inMemory_frame (s : InMemoryDocumentStore) (t : Str)
    (v : List ℚ) (e : List ℚ) (q : Str) (lim : ℕ) :
    ((s.add_document t v).2).documents.take s.documents.length = s.documents
    ∧ ((s.add_document t v).2).in_memory_count = s.in_memory_count + 1
    ∧ (s.retrieve e q lim).2 = s := by
  refine ⟨?_, ?_, rfl⟩
  · simp [InMemoryDocumentStore.add_document, List.take_left]
  · simp [InMemoryDocumentStore.add_document, InMemoryDocumentStore.in_memory_count]

/-- Spec-side description of in-memory retrieval, written from the spec's
words: the texts of all stored documents whose text contains the raw query
case-insensitively, in insertion order; if no document matches and at
least one document is stored, exactly the one-element sequence holding the
first ever inserted document's text; if the store is empty, the empty
sequence. -/
def retrieveSpec (docs : List Document) (raw_query : Str) : List Str :=
  let matched :=
    (docs.filter fun d => pyInStr (pyLower raw_query) (pyLower d.text)).map
      Document.text
  match matched, docs with
  | [], [] => []
  | [], first :: _ => [first.text]
  | ms, _ => ms

/-- Claim C2: in-memory `retrieve` returns exactly what the spec
describes — all case-insensitive substring matches in insertion order,
the first document as fallback on a non-empty store with no match, and
the empty sequence on an empty store — and the result does not depend on
the `query_embedding` argument (nor on the unused `limit`). -/
theorem c2_inMemory_retrieve (s : InMemoryDocumentStore)
    (e e' : List ℚ) (q : Str) (lim lim' : ℕ) :
    (s.retrieve e q lim).1 = retrieveSpec s.documents q
    ∧ (s.retrieve e q lim).1 = (s.retrieve e' q lim').1 := by
  refine ⟨?_, rfl⟩
  simp only [InMemoryDocumentStore.retrieve, retrieveSpec]
  split
  next hemp =>
    rw [List.isEmpty_iff] at hemp
    rw [hemp]
    cases s.documents <;> rfl
  next hne =>
    rcases hm : List.map Document.text (s.documents.filter fun d =>
        pyInStr (pyLower q) (pyLower d.text)) with _ | ⟨a, l⟩
    · rw [hm] at hne
      simp at hne
    · cases s.documents <;> rfl

/-- Claim C3: `answer_node` produces the fixed "no answer" string exactly
when the context is empty (or absent), and on a non-empty context it
produces the fixed template over the first 100 characters of the first
context entry — an expression that mentions neither the other context
entries nor the question, as the last two equations make explicit. -/
theorem c3_answer_node (q q' : Str) (first : Str) (rest rest' : List Str)
    (a a' : Option Str) :
    (answer_node ⟨q, some [], a⟩).answer = some noAnswerString
    ∧ (answer_node ⟨q, none, a⟩).answer = some noAnswerString
    ∧ (answer_node ⟨q, some (first :: rest), a⟩).answer
        = some ("I found this: '".data ++ first.take 100 ++ "...'".data)
    ∧ (answer_node ⟨q, some (first :: rest), a⟩).answer
        = (answer_node ⟨q', some (first :: rest'), a'⟩).answer :=
  ⟨rfl, rfl, rfl, rfl⟩

/-- Claim C8: the answer stage is a function of the context alone — two
pipeline states with equal context fields yield equal answers, whatever
their question texts. -/
theorem c8_answer_noninterference (s1 s2 : PipelineState)
    (h : s1.context = s2.context) :
    (answer_node s1).answer = (answer_node s2).answer := by
  simp only [answer_node, h]

/-- Witness for C8: two concrete states with different questions and the
same context get the same answer. -/
theorem c8_answer_noninterference_witness :
    (answer_node ⟨"why".data, some ["ctx".data], none⟩).answer
      = (answer_node ⟨"how".data, some ["ctx".data], none⟩).answer :=
  c8_answer_noninterference _ _ rfl

/-- Claim C9: `FakeEmbeddingService.embed` at the configured dimension
always returns a vector of exactly 128 draws, and the vector is a function
of the text's hash alone — so two calls with the same text (hence the same
hash and the same derived seed) return identical vectors. -/
theorem c9_embed_deterministic (h : Str → ℤ) (rng : ℕ → ℕ → ℚ)
    (t t' : Str) (hh : h t' = h t) :
    (FakeEmbeddingService.embed h rng EMBEDDING_DIM t).length = 128
    ∧ FakeEmbeddingService.embed h rng EMBEDDING_DIM t'
        = FakeEmbeddingService.embed h rng EMBEDDING_DIM t := by
  constructor
  · simp [FakeEmbeddingService.embed, EMBEDDING_DIM]
  · simp [FakeEmbeddingService.embed, hh]

/-- Witness for C9 at a constant hash and stream and two equal texts. -/
theorem c9_embed_deterministic_witness :
    (FakeEmbeddingService.embed (fun _ => 0) (fun _ _ => 0)
        EMBEDDING_DIM "a".data).length = 128
    ∧ FakeEmbeddingService.embed (fun _ => 0) (fun _ _ => 0)
        EMBEDDING_DIM "a".data
      = FakeEmbeddingService.embed (fun _ => 0) (fun _ _ => 0)
        EMBEDDING_DIM "a".data :=
  c9_embed_deterministic (fun _ => 0) (fun _ _ => 0) "a".data "a".data rfl

/-- Claim C6: `create_document_store` makes a single initialization
attempt (the model consumes one outcome); every exception is caught and
answered with a fresh in-memory store — the result type has no error
case, so the failure is never surfaced to the caller — and a successful
attempt yields the Qdrant-backed store. -/
theorem c6_create_document_store (msg : String) :
    create_document_store (.error msg)
        = .inMemory InMemoryDocumentStore.empty
    ∧ create_document_store (.ok ())
        = .qdrant QdrantDocumentStore.fresh :=
  ⟨rfl, rfl⟩

/-- Claim C7: Qdrant-backed `retrieve` fails with the configuration error
when the client exposes neither query capability, and otherwise every
returned text is extracted from some hit of the chosen backend call whose
payload is a dict containing a `"text"` entry — hits without such a
payload never contribute a result. -/
theorem c7_qdrant_retrieve (client : QdrantClientModel) (e : List ℚ)
    (q : Str) (lim : ℕ) :
    (client.has_query_points = false → client.has_search = false →
      QdrantDocumentStore.retrieve client e q lim
        = .error qdrantCapabilityError)
    ∧ ∀ res, QdrantDocumentStore.retrieve client e q lim = .ok res →
      ∀ t ∈ res, ∃ hit,
        (hit ∈ client.query_points_hits e lim
          ∨ hit ∈ client.search_hits e lim)
        ∧ hitText hit = some t := by
  constructor
  · intro h1 h2
    simp [QdrantDocumentStore.retrieve, h1, h2]
  · intro res hok t ht
    unfold QdrantDocumentStore.retrieve at hok
    by_cases h1 : client.has_query_points = true
    · simp [h1] at hok
      subst hok
      obtain ⟨hit, hmem, htext⟩ := List.mem_filterMap.mp ht
      exact ⟨hit, Or.inl hmem, htext⟩
    · by_cases h2 : client.has_search = true
      · simp [h1, h2] at hok
        subst hok
        obtain ⟨hit, hmem, htext⟩ := List.mem_filterMap.mp ht
        exact ⟨hit, Or.inr hmem, htext⟩
      · simp [h1, h2] at hok

/-- Client model with neither query capability, for the C7 witness. -/
def c7ClientNone : QdrantClientModel :=
  ⟨false, false, fun _ _ => [], fun _ _ => []⟩

/-- Client model exposing `query_points` with one text-bearing hit, for
the C7 witness. -/
def c7ClientHit : QdrantClientModel :=
  ⟨true, false, fun _ _ => [⟨some (.dict [("text", "hello".data)])⟩],
    fun _ _ => []⟩

/-- Witness for C7: the capability error fires on a capability-free
client, and a text-bearing hit is recovered from a client that has
`query_points`. -/
theorem c7_qdrant_retrieve_witness :
    QdrantDocumentStore.retrieve c7ClientNone [] [] 2
        = .error qdrantCapabilityError
    ∧ ∃ hit,
        (hit ∈ c7ClientHit.query_points_hits [] 2
          ∨ hit ∈ c7ClientHit.search_hits [] 2)
        ∧ hitText hit = some "hello".data :=
  ⟨(c7_qdrant_retrieve c7ClientNone [] [] 2).1 rfl rfl,
   (c7_qdrant_retrieve c7ClientHit [] [] 2).2 ["hello".data] rfl
     "hello".data (by simp)⟩

/-- The empty query is a substring of every text. -/
lemma pyInStr_nil (t : Str) : pyInStr [] t = true := by
  cases t <;> simp [pyInStr, pyStartsWith]

/-- In-memory `retrieve` with the empty raw query returns the text of
every stored document: the empty string matches every text. -/
lemma retrieve_empty_query (s : InMemoryDocumentStore) (e : List ℚ)
    (lim : ℕ) :
    (s.retrieve e [] lim).1 = s.documents.map Document.text := by
  simp only [InMemoryDocumentStore.retrieve, pyLower, List.map_nil,
    pyInStr_nil, List.filter_true]
  cases s.documents <;> simp

/-- Store holding the single document `"hello"`, reachable from the fresh
store by one `add_document` call; used for claim C4. -/
def c4Store : InMemoryDocumentStore :=
  (InMemoryDocumentStore.empty.add_document "hello".data
    (FakeEmbeddingService.embed (fun _ => 0) (fun _ _ => 0)
      EMBEDDING_DIM "hello".data)).2

/-- Counterexample to claim C4 as stated: on a store holding one document,
`answer_question` with the empty question returns a non-empty context (the
empty query matches every stored text), not the empty context the claim
requires for every store state. -/
theorem c4_counterexample :
    (answer_question c4Store
      (FakeEmbeddingService.embed (fun _ => 0) (fun _ _ => 0) EMBEDDING_DIM)
      []).context_used ≠ [] := by
  decide

/-- Claim C4 amended: `answer_question` on the empty question never fails
— it is total and returns, on any store state, the context listing every
stored document's text (the empty query matches everything); hence the
context is empty and the answer is the "no answer" string exactly when
the store is empty, and on a non-empty store the answer is the template
over the first stored document. -/
theorem c4_empty_question (store : InMemoryDocumentStore)
    (embed : Str → List ℚ) :
    (answer_question store embed []).context_used
        = store.documents.map Document.text
    ∧ (store.documents = [] →
        (answer_question store embed []).answer = noAnswerString)
    ∧ ∀ d rest, store.documents = d :: rest →
        (answer_question store embed []).answer = answerTemplate d.text := by
  refine ⟨?_, ?_, ?_⟩
  · simp [answer_question, answer_node, retrieve_node, retrieve_empty_query]
  · intro hd
    simp [answer_question, answer_node, retrieve_node, retrieve_empty_query,
      hd]
  · intro d rest hd
    simp [answer_question, answer_node, retrieve_node, retrieve_empty_query,
      hd]

/-- Witness for the amended C4 at the empty store and at `c4Store`. -/
theorem c4_empty_question_witness :
    (answer_question InMemoryDocumentStore.empty (fun _ => []) []).answer
        = noAnswerString
    ∧ (answer_question c4Store (fun _ => []) []).answer
        = answerTemplate "hello".data :=
  ⟨(c4_empty_question InMemoryDocumentStore.empty (fun _ => [])).2.1 rfl,
   (c4_empty_question c4Store (fun _ => [])).2.2
     ⟨0, "hello".data,
       FakeEmbeddingService.embed (fun _ => 0) (fun _ _ => 0)
         EMBEDDING_DIM "hello".data⟩ [] rfl⟩

/-- Store holding three documents that all contain `"a"`, reachable from
the fresh store by three `add_document` calls; used for claim C5. -/
def c5Store : InMemoryDocumentStore :=
  (((InMemoryDocumentStore.empty.add_document "a".data []).2.add_document
      "ab".data []).2.add_document "ac".data []).2

/-- Counterexample to claim C5 as stated: the in-memory `retrieve` ignores
`limit` — with three stored documents all matching the query `"a"` and
`limit = 2`, it returns three texts. -/
theorem c5_retrieve_exceeds_limit :
    ¬ ((c5Store.retrieve [] "a".data 2).1.length ≤ 2) := by
  decide

/-- Claim C5 amended: the vector-backed `retrieve` returns at most `limit`
texts whenever the backend honours the limit on the hit lists; the
in-memory `retrieve` does not consult `limit` at all, and is bounded only
by the number of stored documents (with the one-element fallback on a
non-empty store). -/
theorem c5_retrieve_length_bound (client : QdrantClientModel) (e : List ℚ)
    (q : Str) (lim : ℕ) (res : List Str) (s : InMemoryDocumentStore)
    (hq : (client.query_points_hits e lim).length ≤ lim)
    (hs : (client.search_hits e lim).length ≤ lim)
    (hok : QdrantDocumentStore.retrieve client e q lim = .ok res) :
    res.length ≤ lim
    ∧ ((s.retrieve e q lim).1).length ≤ max s.documents.length 1 := by
  constructor
  · unfold QdrantDocumentStore.retrieve at hok
    by_cases h1 : client.has_query_points = true
    · simp [h1] at hok
      subst hok
      exact le_trans (List.length_filterMap_le _ _) hq
    · by_cases h2 : client.has_search = true
      · simp [h1, h2] at hok
        subst hok
        exact le_trans (List.length_filterMap_le _ _) hs
      · simp [h1, h2] at hok
  · simp only [InMemoryDocumentStore.retrieve]
    split
    · cases s.documents with
      | nil => simp
      | cons d rest => simp
    · refine le_trans ?_ (le_max_left _ _)
      simpa using List.length_filter_le _ s.documents

/-- Client model returning no hits, for the C5 witness. -/
def c5Client : QdrantClientModel :=
  ⟨true, false, fun _ _ => [], fun _ _ => []⟩

/-- Witness for the amended C5 at an empty-hit client and the empty
store. -/
theorem c5_retrieve_length_bound_witness :
    ([] : List Str).length ≤ 2
    ∧ ((InMemoryDocumentStore.empty.retrieve [] [] 2).1).length
        ≤ max InMemoryDocumentStore.empty.documents.length 1 :=
  c5_retrieve_length_bound c5Client [] [] 2 [] InMemoryDocumentStore.empty
    (by simp [c5Client]) (by simp [c5Client]) rfl

end BithealthCrfc
